import Mathlib

/-!
Shallow embedding of `webrtc-sys/src/frame_cryptor.cpp` (LiveKit frame
cryptor control plane): algorithm selection, media-type classification at
construction, the FrameCryptor lifecycle (enable/disable, key index,
observer registration/unregistration) and the teardown paths through the
`NativeFrameCryptorObserver` bridge destructor.

The FrameCryptor mutable state is guarded by a single non-recursive
`webrtc::Mutex` (external WebRTC primitive: acquiring it again on the
thread that already holds it does not succeed).  The model makes the lock
explicit (`mutexHeld`) and reports an attempted second acquisition as the
`deadlock` outcome, carrying the state at the failed acquisition.  The
`observer_` slot is a `std::unique_ptr` as used by the translation unit
(`observer_ = std::make_unique<...>`, `observer_ = nullptr`,
`observer_.get()`): assigning to it destroys the previously held bridge,
and destroying a `NativeFrameCryptorObserver` runs
`fc_->unregister_observer()` (frame_cryptor.cpp lines 118-120), which is
where the observer teardown paths become recursive; the recursion is made
structural with a fuel parameter.
-/

/-- The cipher selection of the external transformer,
`webrtc::FrameCryptorTransformer::Algorithm`. -/
inductive FCAlgorithm where
  | kAesGcm
  | kAesCbc
deriving DecidableEq, Repr

/-- The FFI `Algorithm` enum as it crosses the bridge: an underlying
integer value.  `AesGcm` and `AesCbc` are the two declared members; any
other value is an unknown/invalid enum value reaching the `switch`. -/
structure Algorithm where
  value : Nat
deriving DecidableEq, Repr

/-- `Algorithm::AesGcm`. -/
def Algorithm.AesGcm : Algorithm := ⟨0⟩

/-- `Algorithm::AesCbc`. -/
def Algorithm.AesCbc : Algorithm := ⟨1⟩

/-- `AlgorithmToFrameCryptorAlgorithm` (frame_cryptor.cpp lines 26-36):
`switch` on the enum with cases for `AesGcm` and `AesCbc` and a `default`
arm returning `kAesGcm`. -/
def AlgorithmToFrameCryptorAlgorithm (algorithm : Algorithm) : FCAlgorithm :=
  if algorithm = Algorithm.AesGcm then .kAesGcm
  else if algorithm = Algorithm.AesCbc then .kAesCbc
  else .kAesGcm

/-- `webrtc::FrameCryptorTransformer::MediaType`. -/
inductive MediaType where
  | kAudioFrame
  | kVideoFrame
deriving DecidableEq, Repr

/-- The media-type classification expression of both constructors
(frame_cryptor.cpp lines 67-70 and 86-89):
`track->kind() == "audio" ? kAudioFrame : kVideoFrame`. -/
def classifyMediaType (kind : String) : MediaType :=
  if kind = "audio" then .kAudioFrame else .kVideoFrame

/-- A media track as seen by the constructors: only `kind()` is read. -/
structure MediaStreamTrack where
  kind : String
deriving DecidableEq, Repr

/-- `webrtc::RtpSenderInterface` as used here: `track()` returns a
ref-counted pointer that is null when no track is attached. -/
structure RtpSender where
  track : Option MediaStreamTrack
deriving DecidableEq, Repr

/-- `webrtc::RtpReceiverInterface` as used here: `track()` returns a
ref-counted pointer that is null when no track is attached. -/
structure RtpReceiver where
  track : Option MediaStreamTrack
deriving DecidableEq, Repr

/-- The `NativeFrameCryptorObserver` bridge: owns the application observer
(the `rust::Box<RtcFrameCryptorObserverWrapper>`, identified here by a
number) and a back-pointer to its FrameCryptor (implicit: the state the
operations below act on). -/
structure Bridge where
  appObs : Nat
deriving DecidableEq, Repr

/-- Modelled from the spec: the external `webrtc::FrameCryptorTransformer`
black box, per its contract in the spec (an enabled flag written by
`SetEnabled` and read by `enabled`, a key index written by `SetKeyIndex`
and read by `key_index`, and an observer pointer installed by
`SetFrameCryptorTransformerObserver` and invoked on cryption-state
changes). -/
structure Transformer where
  enabled : Bool
  keyIndex : Int
  observer : Option Bridge
deriving DecidableEq, Repr

/-- Modelled from the spec: the `FrameCryptor` members declared in
`livekit/frame_cryptor.h` (not under src/), with the types the translation
unit uses them at: `observer_` a `std::unique_ptr` bridge slot
(`observerSlot`), the owned `e2ee_transformer_` (`transformer`), the
non-recursive `webrtc::Mutex mutex_` (`mutexHeld`), and the bound
sender/receiver attachment point, reduced to whether it still holds the
transformer (`attachedToEndpoint`).  `unregisterCalls` is instrumentation:
it counts entries into `FrameCryptor::unregister_observer`. -/
structure FCState where
  participantId : String
  mediaType : MediaType
  algorithm : FCAlgorithm
  observerSlot : Option Bridge
  transformer : Transformer
  attachedToEndpoint : Bool
  mutexHeld : Bool
  unregisterCalls : Nat
deriving DecidableEq, Repr

/-- Outcome of a control operation: normal completion, or an attempted
second acquisition of the held non-recursive mutex (`deadlock`, carrying
the state at the failed acquisition), or fuel exhaustion of the model. -/
inductive Res (α : Type) where
  | ok (a : α)
  | deadlock (stuck : FCState)
  | outOfFuel
deriving DecidableEq, Repr

/-- Whether the outcome is the failed second mutex acquisition. -/
def Res.isDeadlock {α : Type} : Res α → Bool
  | .deadlock _ => true
  | _ => false

/-- The `unregister_observer` entry count at the failed acquisition. -/
def Res.unregisterCallsAt {α : Type} : Res α → Option Nat
  | .deadlock s => some s.unregisterCalls
  | _ => none

/-- Whether the mutex was already held at the failed acquisition. -/
def Res.mutexHeldAt {α : Type} : Res α → Option Bool
  | .deadlock s => some s.mutexHeld
  | _ => none

/-- What happened to the null-checking-free code: dereferencing the null
track pointer of a sender/receiver with no attached track. -/
inductive CrashKind where
  | nullTrackDeref
deriving DecidableEq, Repr

/-- Externally visible steps a constructor performs, in program order. -/
inductive CtorEffect where
  | classified (mt : MediaType)
  | attachedSenderTransformer
  | attachedReceiverTransformer
  | setTransformerEnabled (b : Bool)
deriving DecidableEq, Repr

/-- Whether a constructor effect is the media-type classification. -/
def CtorEffect.isClassified : CtorEffect → Bool
  | .classified _ => true
  | _ => false

/-- `FrameCryptor::FrameCryptor` sender variant (frame_cryptor.cpp lines
59-76): reads `sender->track()->kind()` with no null check (an absent
track is a null dereference, modelled as the `nullTrackDeref` error),
classifies the media type, constructs the transformer (its
constructor-initial enabled flag and key index are left as the
unspecified parameters `tInit`/`kInit`), attaches it via
`SetEncoderToPacketizerFrameTransformer`, and only then calls
`SetEnabled(false)`.  Returns the state and the effects in order. -/
def FrameCryptor.newForSender (participant_id : String) (algorithm : FCAlgorithm)
    (sender : RtpSender) (tInit : Bool) (kInit : Int) :
    Except CrashKind (FCState × List CtorEffect) :=
  match sender.track with
  | none => .error .nullTrackDeref
  | some tr =>
    let mediaType := classifyMediaType tr.kind
    let t0 : Transformer := { enabled := tInit, keyIndex := kInit, observer := none }
    .ok ({ participantId := participant_id
           mediaType := mediaType
           algorithm := algorithm
           observerSlot := none
           transformer := { t0 with enabled := false }
           attachedToEndpoint := true
           mutexHeld := false
           unregisterCalls := 0 },
         [.classified mediaType, .attachedSenderTransformer, .setTransformerEnabled false])

/-- `FrameCryptor::FrameCryptor` receiver variant (frame_cryptor.cpp lines
78-95): identical to the sender variant except the transformer is
attached via `SetDepacketizerToDecoderFrameTransformer`. -/
def FrameCryptor.newForReceiver (participant_id : String) (algorithm : FCAlgorithm)
    (receiver : RtpReceiver) (tInit : Bool) (kInit : Int) :
    Except CrashKind (FCState × List CtorEffect) :=
  match receiver.track with
  | none => .error .nullTrackDeref
  | some tr =>
    let mediaType := classifyMediaType tr.kind
    let t0 : Transformer := { enabled := tInit, keyIndex := kInit, observer := none }
    .ok ({ participantId := participant_id
           mediaType := mediaType
           algorithm := algorithm
           observerSlot := none
           transformer := { t0 with enabled := false }
           attachedToEndpoint := true
           mutexHeld := false
           unregisterCalls := 0 },
         [.classified mediaType, .attachedReceiverTransformer, .setTransformerEnabled false])

/-- The constructed state's media type, when construction completed. -/
def ctorMediaType : Except CrashKind (FCState × List CtorEffect) → Option MediaType
  | .ok (s, _) => some s.mediaType
  | .error _ => none

/-- How many classification effects construction performed, when it
completed. -/
def classifiedCount : Except CrashKind (FCState × List CtorEffect) → Option Nat
  | .ok (_, effs) => some (effs.countP (fun e => e.isClassified))
  | .error _ => none

/-- `FrameCryptor::unregister_observer` (frame_cryptor.cpp lines
107-111), which is also the whole body of
`NativeFrameCryptorObserver::~NativeFrameCryptorObserver`
(lines 118-120), so destroying a bridge re-enters this function:

1. entry (counted by `unregisterCalls`);
2. `webrtc::MutexLock lock(&mutex_)` — if the mutex is already held by
   the ongoing call this second acquisition of the non-recursive mutex
   does not succeed (`deadlock`);
3. `observer_ = nullptr`: `unique_ptr::reset` stores null and then
   deletes the previously held bridge, whose destructor runs this very
   function again (the recursive call on `fuel`);
4. `SetFrameCryptorTransformerObserver(nullptr)`;
5. the lock guard releases the mutex. -/
def FrameCryptor.unregister_observer : Nat → FCState → Res FCState
  | 0, _ => .outOfFuel
  | fuel + 1, s =>
    let s := { s with unregisterCalls := s.unregisterCalls + 1 }
    if s.mutexHeld then .deadlock s
    else
      let s1 := { s with mutexHeld := true }
      let old := s1.observerSlot
      let s2 := { s1 with observerSlot := none }
      let after : Res FCState :=
        match old with
        | none => .ok s2
        | some _ => FrameCryptor.unregister_observer fuel s2
      match after with
      | .ok s3 =>
        .ok { s3 with transformer := { s3.transformer with observer := none }
                      mutexHeld := false }
      | r => r

/-- `FrameCryptor::register_observer` (frame_cryptor.cpp lines 99-105):
takes the lock; `observer_ = std::make_unique<NativeFrameCryptorObserver>(...)`
stores the fresh bridge and then deletes the previously held one (whose
destructor re-enters `unregister_observer` — the recursive call); then
`SetFrameCryptorTransformerObserver(observer_.get())` installs whatever
the slot now holds; the lock guard releases the mutex. -/
def FrameCryptor.register_observer : Nat → Nat → FCState → Res FCState
  | 0, _, _ => .outOfFuel
  | fuel + 1, newObs, s =>
    if s.mutexHeld then .deadlock s
    else
      let s1 := { s with mutexHeld := true }
      let b2 : Bridge := { appObs := newObs }
      let old := s1.observerSlot
      let s2 := { s1 with observerSlot := some b2 }
      let after : Res FCState :=
        match old with
        | none => .ok s2
        | some _ => FrameCryptor.unregister_observer fuel s2
      match after with
      | .ok s3 =>
        .ok { s3 with transformer := { s3.transformer with observer := s3.observerSlot }
                      mutexHeld := false }
      | r => r

/-- `FrameCryptor::~FrameCryptor` (frame_cryptor.cpp line 97): the body is
empty; member destructors then run.  The `observer_` `unique_ptr`, when
non-null, deletes the bridge without clearing the slot first, so the
bridge destructor (= `unregister_observer`) still sees the dying bridge
in the slot and deletes it a second time.  Nothing detaches the
transformer from the sender/receiver attachment point. -/
def FrameCryptor.drop : Nat → FCState → Res FCState
  | 0, _ => .outOfFuel
  | fuel + 1, s =>
    match s.observerSlot with
    | none => .ok s
    | some _ => FrameCryptor.unregister_observer fuel s

/-- `FrameCryptor::set_enabled` (frame_cryptor.cpp lines 129-132): lock,
`e2ee_transformer_->SetEnabled(enabled)`, unlock. -/
def FrameCryptor.set_enabled (enabled : Bool) (s : FCState) : Res FCState :=
  if s.mutexHeld then .deadlock s
  else .ok { s with transformer := { s.transformer with enabled := enabled } }

/-- `FrameCryptor::enabled` (frame_cryptor.cpp lines 134-137): lock, read
`e2ee_transformer_->enabled()`, unlock. -/
def FrameCryptor.enabled (s : FCState) : Res Bool :=
  if s.mutexHeld then .deadlock s
  else .ok s.transformer.enabled

/-- `FrameCryptor::set_key_index` (frame_cryptor.cpp lines 139-142):
lock, `e2ee_transformer_->SetKeyIndex(index)`, unlock.  The `int32_t` is
passed through unchanged. -/
def FrameCryptor.set_key_index (index : Int) (s : FCState) : Res FCState :=
  if s.mutexHeld then .deadlock s
  else .ok { s with transformer := { s.transformer with keyIndex := index } }

/-- `FrameCryptor::key_index` (frame_cryptor.cpp lines 144-147): lock,
read `e2ee_transformer_->key_index()`, unlock. -/
def FrameCryptor.key_index (s : FCState) : Res Int :=
  if s.mutexHeld then .deadlock s
  else .ok s.transformer.keyIndex

/-- A cryption-state-change event
(`NativeFrameCryptorObserver::OnFrameCryptionStateChanged`,
frame_cryptor.cpp lines 122-127): the transformer invokes the observer
pointer installed on it, and that bridge forwards to the application
observer it owns.  Returns which application observer receives the
callback, if any. -/
def deliverStateChange (s : FCState) : Option Nat :=
  s.transformer.observer.map Bridge.appObs

/-- An application issuing a sequence of `set_enabled` calls in order on
one thread, stopping at the first abnormal outcome. -/
def applySetEnabled : List Bool → FCState → Res FCState
  | [], s => .ok s
  | b :: bs, s =>
    match FrameCryptor.set_enabled b s with
    | .ok s1 => applySetEnabled bs s1
    | r => r

/-- An audio track. -/
def audioTrack : MediaStreamTrack := { kind := "audio" }

/-- A video track. -/
def videoTrack : MediaStreamTrack := { kind := "video" }

/-- A sender with an audio track attached. -/
def sender1 : RtpSender := { track := some audioTrack }

/-- A receiver with a video track attached. -/
def receiver1 : RtpReceiver := { track := some videoTrack }

/-- The state produced by the sender-variant constructor on `sender1`
with participant id "participant-1" and AES-GCM. -/
def fc0 : FCState :=
  { participantId := "participant-1"
    mediaType := .kAudioFrame
    algorithm := .kAesGcm
    observerSlot := none
    transformer := { enabled := false, keyIndex := 0, observer := none }
    attachedToEndpoint := true
    mutexHeld := false
    unregisterCalls := 0 }

/-- `fc0` after `register_observer` installed application observer 1. -/
def fcReg : FCState :=
  { fc0 with observerSlot := some ⟨1⟩
             transformer := { fc0.transformer with observer := some ⟨1⟩ } }

/-- The state produced by the receiver-variant constructor on `receiver1`
with participant id "participant-2" and AES-CBC. -/
def fcR0 : FCState :=
  { participantId := "participant-2"
    mediaType := .kVideoFrame
    algorithm := .kAesCbc
    observerSlot := none
    transformer := { enabled := false, keyIndex := 0, observer := none }
    attachedToEndpoint := true
    mutexHeld := false
    unregisterCalls := 0 }

/-- `fcR0` after `register_observer` installed application observer 2. -/
def fcRReg : FCState :=
  { fcR0 with observerSlot := some ⟨2⟩
              transformer := { fcR0.transformer with observer := some ⟨2⟩ } }

example : FrameCryptor.newForSender "participant-1" .kAesGcm sender1 true 0 =
    .ok (fc0, [.classified .kAudioFrame, .attachedSenderTransformer,
               .setTransformerEnabled false]) := rfl

example : FrameCryptor.register_observer 10 1 fc0 = .ok fcReg := rfl

example : FrameCryptor.register_observer 10 2 fcR0 = .ok fcRReg := rfl

/-- C1: dropping a FrameCryptor with an observer registered does not
produce exactly one unregister effect: the `observer_` member's
destruction runs the bridge destructor, which re-enters
`unregister_observer`; that call deletes the dying bridge a second time
(its slot was not cleared), and the nested destructor's
`unregister_observer` entry finds the non-recursive mutex already held —
two `unregister_observer` entries and a failed second mutex acquisition
instead of one clean unregister.  Moreover even the observer-free drop
leaves the transformer attached to the sender/receiver: `~FrameCryptor`
never nulls the attachment point. -/
theorem frameCryptor_drop_with_observer_reenters_and_never_detaches :
    FrameCryptor.newForSender "participant-1" .kAesGcm sender1 true 0 =
      .ok (fc0, [.classified .kAudioFrame, .attachedSenderTransformer,
                 .setTransformerEnabled false]) ∧
    FrameCryptor.register_observer 10 1 fc0 = .ok fcReg ∧
    (FrameCryptor.drop 10 fcReg).isDeadlock = true ∧
    (FrameCryptor.drop 10 fcReg).unregisterCallsAt = some 2 ∧
    FrameCryptor.drop 10 fc0 = .ok fc0 ∧
    fc0.attachedToEndpoint = true :=
  ⟨rfl, rfl, rfl, rfl, rfl, rfl⟩

/-- C2 counterexample: constructing a FrameCryptor for a sender with no
attached track does not complete with a "video" fallback — the
constructor reads `sender->track()->kind()` with no null check, so the
absent track is dereferenced (a hard failure, modelled as
`nullTrackDeref`), refuting the claim that construction completes. -/
theorem newForSender_null_track_hard_fails :
    FrameCryptor.newForSender "p" .kAesGcm { track := none } true 7 =
      .error .nullTrackDeref := rfl

/-- C2 amended: constructing a FrameCryptor for a sender whose attached
track is absent dereferences the null track pointer and hard-fails; the
fallback to "video" applies only when a track is attached whose kind is
anything other than "audio", in which case construction completes with
the video media type. -/
theorem newForSender_absent_track_fails_and_nonaudio_is_video :
    ∀ (pid : String) (alg : FCAlgorithm) (tInit : Bool) (kInit : Int),
      FrameCryptor.newForSender pid alg { track := none } tInit kInit =
        .error .nullTrackDeref ∧
      ∀ k : String, k ≠ "audio" →
        ctorMediaType
          (FrameCryptor.newForSender pid alg { track := some { kind := k } } tInit kInit) =
          some .kVideoFrame := by
  refine fun pid alg tInit kInit => ⟨rfl, fun k hk => ?_⟩
  simp [FrameCryptor.newForSender, ctorMediaType, classifyMediaType, hk]

/-- Witness for C2 amended at kind "screen". -/
theorem newForSender_absent_track_fails_and_nonaudio_is_video_witness :
    ("screen" : String) ≠ "audio" ∧
    ctorMediaType
      (FrameCryptor.newForSender "p" .kAesCbc { track := some { kind := "screen" } } false 0) =
      some .kVideoFrame :=
  ⟨by decide,
   (newForSender_absent_track_fails_and_nonaudio_is_video "p" .kAesCbc false 0).2
     "screen" (by decide)⟩

/-- C3: `register_observer(o1)` then `register_observer(o2)` does not
end with o2 as the single registered observer: while the second call
holds the non-recursive mutex, assigning the new bridge into `observer_`
destroys o1's bridge, whose destructor re-enters `unregister_observer`
and attempts a second acquisition of the held mutex — the replacement
never completes, so no later event is delivered to o2. -/
theorem register_observer_replacement_reenters_under_lock :
    FrameCryptor.register_observer 10 1 fc0 = .ok fcReg ∧
    deliverStateChange fcReg = some 1 ∧
    (FrameCryptor.register_observer 10 2 fcReg).isDeadlock = true ∧
    (FrameCryptor.register_observer 10 2 fcReg).mutexHeldAt = some true :=
  ⟨rfl, rfl, rfl, rfl⟩

/-- C4: control operations do re-acquire the per-FrameCryptor mutex
within one call: `register_observer` with an observer already registered
enters `unregister_observer` (via the replaced bridge's destructor) while
the mutex is still held by the same call, and destruction with an
observer registered enters `unregister_observer` twice, the second entry
while the first still holds the mutex. -/
theorem control_ops_reacquire_held_mutex :
    (FrameCryptor.register_observer 10 3 fcRReg).mutexHeldAt = some true ∧
    (FrameCryptor.register_observer 10 3 fcRReg).unregisterCallsAt = some 1 ∧
    (FrameCryptor.drop 10 fcRReg).mutexHeldAt = some true ∧
    (FrameCryptor.drop 10 fcRReg).unregisterCallsAt = some 2 :=
  ⟨rfl, rfl, rfl, rfl⟩

/-- C5: `unregister_observer` with no observer registered is indeed a
safe no-op (only the entry counter changes), but after
`register_observer` a call to `unregister_observer` does not idempotently
clear the slot: deleting the registered bridge re-enters
`unregister_observer` from the bridge destructor while the first entry
still holds the non-recursive mutex, so the call never completes and the
no-callback postcondition is not reached. -/
theorem unregister_observer_noop_when_empty_reentrant_when_registered :
    FrameCryptor.unregister_observer 10 fc0 = .ok { fc0 with unregisterCalls := 1 } ∧
    FrameCryptor.register_observer 10 1 fc0 = .ok fcReg ∧
    (FrameCryptor.unregister_observer 10 fcReg).isDeadlock = true ∧
    (FrameCryptor.unregister_observer 10 fcReg).unregisterCallsAt = some 2 :=
  ⟨rfl, rfl, rfl, rfl⟩

/-- C6: every freshly constructed FrameCryptor, sender- or
receiver-bound, starts disabled: whatever the transformer's
constructor-initial flag, the constructor attaches the transformer to
the attachment point and then sets it disabled (the effect list, in
program order), so `enabled()` returns false immediately after
construction. -/
theorem frameCryptor_ctor_attaches_then_disables :
    ∀ (pid : String) (alg : FCAlgorithm) (tr : MediaStreamTrack)
      (tInit : Bool) (kInit : Int),
      (∃ s : FCState,
        FrameCryptor.newForSender pid alg { track := some tr } tInit kInit =
          .ok (s, [.classified (classifyMediaType tr.kind),
                   .attachedSenderTransformer, .setTransformerEnabled false]) ∧
        s.transformer.enabled = false ∧ FrameCryptor.enabled s = .ok false) ∧
      (∃ s : FCState,
        FrameCryptor.newForReceiver pid alg { track := some tr } tInit kInit =
          .ok (s, [.classified (classifyMediaType tr.kind),
                   .attachedReceiverTransformer, .setTransformerEnabled false]) ∧
        s.transformer.enabled = false ∧ FrameCryptor.enabled s = .ok false) :=
  fun _pid _alg _tr _tInit _kInit =>
    ⟨⟨_, rfl, rfl, rfl⟩, ⟨_, rfl, rfl, rfl⟩⟩

/-- C7: for every FrameCryptor state (lock free) and every sequence of
`set_enabled` calls, a subsequent `enabled()` read returns the argument
of the most recent `set_enabled` call. -/
theorem set_enabled_last_write_wins (bs : List Bool) (b : Bool) :
    ∀ s : FCState, s.mutexHeld = false →
      ∃ s', applySetEnabled (bs ++ [b]) s = .ok s' ∧
        FrameCryptor.enabled s' = .ok b := by
  induction bs with
  | nil =>
    intro s h
    refine ⟨{ s with transformer := { s.transformer with enabled := b } }, ?_, ?_⟩
    · simp [applySetEnabled, FrameCryptor.set_enabled, h]
    · simp [FrameCryptor.enabled, h]
  | cons c cs ih =>
    intro s h
    obtain ⟨s', hs, he⟩ :=
      ih { s with transformer := { s.transformer with enabled := c }
                  mutexHeld := false } rfl
    refine ⟨s', ?_, he⟩
    simp only [List.cons_append, applySetEnabled, FrameCryptor.set_enabled, h,
      Bool.false_eq_true, if_false]
    exact hs

/-- Witness for C7: `set_enabled true; set_enabled false; set_enabled
true` on the constructed cryptor, then `enabled()` reads true. -/
theorem set_enabled_last_write_wins_witness :
    fc0.mutexHeld = false ∧
    ∃ s', applySetEnabled ([true, false] ++ [true]) fc0 = .ok s' ∧
      FrameCryptor.enabled s' = .ok true :=
  ⟨rfl, set_enabled_last_write_wins [true, false] true fc0 rfl⟩

/-- C8: for every FrameCryptor state (lock free) and every 32-bit
integer k, negative values included, `set_key_index(k)` completes (it
never fails synchronously: no validation happens at this layer) and a
subsequent `key_index()` returns k. -/
theorem key_index_roundtrip (s : FCState) (k : Int) (h : s.mutexHeld = false)
    (_hlo : -(2 ^ 31) ≤ k) (_hhi : k < 2 ^ 31) :
    ∃ s', FrameCryptor.set_key_index k s = .ok s' ∧
      FrameCryptor.key_index s' = .ok k := by
  refine ⟨{ s with transformer := { s.transformer with keyIndex := k } }, ?_, ?_⟩
  · simp [FrameCryptor.set_key_index, h]
  · simp [FrameCryptor.key_index, h]

/-- Witness for C8 at the negative index -5. -/
theorem key_index_roundtrip_witness :
    fc0.mutexHeld = false ∧ -(2 ^ 31) ≤ (-5 : Int) ∧ (-5 : Int) < 2 ^ 31 ∧
    ∃ s', FrameCryptor.set_key_index (-5) fc0 = .ok s' ∧
      FrameCryptor.key_index s' = .ok (-5) :=
  ⟨rfl, by norm_num, by norm_num,
   key_index_roundtrip fc0 (-5) rfl (by norm_num) (by norm_num)⟩

/-- C9: the algorithm-selection mapping sends `AesGcm` to the AES-GCM
cipher, `AesCbc` to the AES-CBC cipher, and every other value of the
enum's underlying type to AES-GCM (the `default` arm); being a total
function it never fails. -/
theorem algorithm_selection_gcm_fallback :
    AlgorithmToFrameCryptorAlgorithm Algorithm.AesGcm = .kAesGcm ∧
    AlgorithmToFrameCryptorAlgorithm Algorithm.AesCbc = .kAesCbc ∧
    ∀ a : Algorithm, a ≠ Algorithm.AesGcm → a ≠ Algorithm.AesCbc →
      AlgorithmToFrameCryptorAlgorithm a = .kAesGcm := by
  refine ⟨rfl, rfl, fun a h1 h2 => ?_⟩
  simp [AlgorithmToFrameCryptorAlgorithm, h1, h2]

/-- Witness for C9 at the out-of-range enum value 7. -/
theorem algorithm_selection_gcm_fallback_witness :
    Algorithm.mk 7 ≠ Algorithm.AesGcm ∧ Algorithm.mk 7 ≠ Algorithm.AesCbc ∧
    AlgorithmToFrameCryptorAlgorithm (Algorithm.mk 7) = .kAesGcm :=
  ⟨by decide, by decide,
   algorithm_selection_gcm_fallback.2.2 (Algorithm.mk 7) (by decide) (by decide)⟩

/-- C10: media-type classification is exact string equality with
"audio": "audio" yields the audio media type and every other kind string
("video" included) yields the video media type; both constructors store
`classifyMediaType` of the attached track's kind and their effect traces
contain exactly one classification, performed at construction. -/
theorem media_classification_audio_string_once :
    classifyMediaType "audio" = .kAudioFrame ∧
    classifyMediaType "video" = .kVideoFrame ∧
    (∀ k : String, k ≠ "audio" → classifyMediaType k = .kVideoFrame) ∧
    ∀ (pid : String) (alg : FCAlgorithm) (tr : MediaStreamTrack)
      (tInit : Bool) (kInit : Int),
      ctorMediaType (FrameCryptor.newForSender pid alg { track := some tr } tInit kInit) =
        some (classifyMediaType tr.kind) ∧
      classifiedCount (FrameCryptor.newForSender pid alg { track := some tr } tInit kInit) =
        some 1 ∧
      ctorMediaType (FrameCryptor.newForReceiver pid alg { track := some tr } tInit kInit) =
        some (classifyMediaType tr.kind) ∧
      classifiedCount (FrameCryptor.newForReceiver pid alg { track := some tr } tInit kInit) =
        some 1 := by
  refine ⟨by decide, by decide, fun k hk => ?_,
    fun pid alg tr tInit kInit => ⟨rfl, rfl, rfl, rfl⟩⟩
  simp [classifyMediaType, hk]

/-- Witness for C10 at the non-audio kind "data". -/
theorem media_classification_audio_string_once_witness :
    ("data" : String) ≠ "audio" ∧ classifyMediaType "data" = .kVideoFrame :=
  ⟨by decide, media_classification_audio_string_once.2.2.1 "data" (by decide)⟩
